import Mathlib

/-!
# Verification of the `graphics-debug` SVG rendering pipeline

Shallow embedding of `src/lib/getSvgFromGraphicsObject.ts` over exact rational
arithmetic (`ℚ`).  The source computes with JS IEEE doubles; every computation
in this file uses only additions, subtractions, multiplications, divisions by
nonzero values, `min`, `max` and `abs` on small inputs, where double arithmetic
is exact, except for division by zero, which in JS yields `Infinity` for a
positive numerator.  The non-finite path is modelled explicitly with `Option`:
`none` marks the places where the JS computation produces a non-finite value
(`Infinity` / `NaN`) or throws; doc comments on each definition record which.

Numeric attribute values are produced in the source by `Number.toString()` and
handed to the external serializer (out of scope per the spec); the embedding
keeps the numeric value itself via the constructor `AttrVal.num`.
-/

set_option autoImplicit false

namespace GraphicsDebug

/-- Modelled from the spec (§3, `src/lib/types` is not under `src/`):
a scene point `{x, y, color?, label?, stroke?}`. -/
structure Point where
  x : ℚ
  y : ℚ
  color : Option String := none
  label : Option String := none
  stroke : Option ℚ := none
deriving DecidableEq, Repr

/-- Modelled from the spec (§3): a line is an ordered sequence of points.
The source only ever reads `line.points`. -/
structure Line where
  points : List Point
deriving DecidableEq, Repr

/-- Modelled from the spec (§3): `{center, width, height, fill?, stroke?}`. -/
structure Rect where
  center : Point
  width : ℚ
  height : ℚ
  fill : Option String := none
  stroke : Option String := none
deriving DecidableEq, Repr

/-- Modelled from the spec (§3): `{center, radius, fill?, stroke?}`. -/
structure Circle where
  center : Point
  radius : ℚ
  fill : Option String := none
  stroke : Option String := none
deriving DecidableEq, Repr

/-- The two coordinate-system tags of the spec (§3). -/
inductive CoordSys where
  | math
  | screen
deriving DecidableEq, Repr

/-- Modelled from the spec (§3): the `graphics` payload of a `GraphicsObject`.
All four collections are optional (`absent-defaults-to-empty`); the source
checks `coordinateSystem === "screen"`, so an absent tag behaves like
`"math"` and is modelled by `none`. -/
structure Graphics where
  points : Option (List Point) := none
  lines : Option (List Line) := none
  rects : Option (List Rect) := none
  circles : Option (List Circle) := none
  coordinateSystem : Option CoordSys := none
deriving DecidableEq, Repr

/-- Source constant `DEFAULT_SVG_SIZE = 640`. -/
def DEFAULT_SVG_SIZE : ℚ := 640

/-- Source constant `PADDING = 40`. -/
def PADDING : ℚ := 40

/-- Source `interface Bounds`. -/
structure Bounds where
  minX : ℚ
  maxX : ℚ
  minY : ℚ
  maxY : ℚ
deriving DecidableEq, Repr

/-- Embeds `graphics.points || []` (and likewise for the other collections):
in JS an absent collection is `undefined`, which `|| []` replaces by `[]`. -/
def pointsOrEmpty (g : Graphics) : List Point := g.points.getD []

/-- Embeds `graphics.lines || []`. -/
def linesOrEmpty (g : Graphics) : List Line := g.lines.getD []

/-- Embeds `graphics.rects || []`. -/
def rectsOrEmpty (g : Graphics) : List Rect := g.rects.getD []

/-- Embeds `graphics.circles || []`. -/
def circlesOrEmpty (g : Graphics) : List Circle := g.circles.getD []

/-- The four corner points a rect contributes to the bounds scan
(source lines 28-37).  The JS objects carry only `x`/`y`; the optional
fields default to `none` and are never read downstream. -/
def rectCorners (r : Rect) : List Point :=
  let halfWidth := r.width / 2
  let halfHeight := r.height / 2
  [ ⟨r.center.x - halfWidth, r.center.y - halfHeight, none, none, none⟩,
    ⟨r.center.x + halfWidth, r.center.y - halfHeight, none, none, none⟩,
    ⟨r.center.x - halfWidth, r.center.y + halfHeight, none, none, none⟩,
    ⟨r.center.x + halfWidth, r.center.y + halfHeight, none, none, none⟩ ]

/-- The four extremal points a circle contributes to the bounds scan
(source lines 38-43): left, right, top, bottom of the silhouette. -/
def circleExtremes (c : Circle) : List Point :=
  [ ⟨c.center.x - c.radius, c.center.y, none, none, none⟩,
    ⟨c.center.x + c.radius, c.center.y, none, none, none⟩,
    ⟨c.center.x, c.center.y - c.radius, none, none, none⟩,
    ⟨c.center.x, c.center.y + c.radius, none, none, none⟩ ]

/-- The combined point list scanned by `getBounds` (source lines 25-44),
in source order: loose points, then line vertices, then rect corners,
then circle extremes. -/
def combinedPoints (g : Graphics) : List Point :=
  pointsOrEmpty g
    ++ (linesOrEmpty g).flatMap (fun line => line.points)
    ++ (rectsOrEmpty g).flatMap rectCorners
    ++ (circlesOrEmpty g).flatMap circleExtremes

/-- One step of the `points.reduce` accumulator of `getBounds`
(source lines 50-58). -/
def boundsStep (b : Bounds) (p : Point) : Bounds :=
  ⟨min b.minX p.x, max b.maxX p.x, min b.minY p.y, max b.maxY p.y⟩

/-- Source `getBounds` (lines 24-59).  The source seeds the reduce with
`{minX: Infinity, maxX: -Infinity, minY: Infinity, maxY: -Infinity}`; over a
nonempty list this is exactly the fold seeded with the first point's
coordinates (the first `min`/`max` step against `±Infinity` returns the
point's coordinate, and `min`/`max` are idempotent, so folding the first
point again is a no-op), which is how the nonempty case is written here to
stay inside `ℚ`. -/
def getBounds (g : Graphics) : Bounds :=
  match combinedPoints g with
  | [] => ⟨-1, 1, -1, 1⟩
  | p :: ps => (p :: ps).foldl boundsStep ⟨p.x, p.x, p.y, p.y⟩

/-- Source local `width = bounds.maxX - bounds.minX` in `getProjectionMatrix`
(line 65). -/
def sceneWidth (b : Bounds) : ℚ := b.maxX - b.minX

/-- Source local `height = bounds.maxY - bounds.minY` (line 66). -/
def sceneHeight (b : Bounds) : ℚ := b.maxY - b.minY

/-- Embeds `(DEFAULT_SVG_SIZE - 2 * PADDING) / d` under JS division:
the numerator is the positive constant `560`, so JS yields the finite
quotient for `d ≠ 0` and `Infinity` for `d = 0`; `none` models the
`Infinity` result. -/
def fitRatio (d : ℚ) : Option ℚ :=
  if d = 0 then none else some ((DEFAULT_SVG_SIZE - 2 * PADDING) / d)

/-- Embeds `Math.min` over the two fit ratios, where `none` stands for
`Infinity`: `Math.min(Infinity, v) = v` and `Math.min(Infinity, Infinity)
= Infinity`. -/
def jsMin : Option ℚ → Option ℚ → Option ℚ
  | none, y => y
  | some x, none => some x
  | some x, some y => some (min x y)

/-- Source `scale_factor` (lines 68-71):
`Math.min((S - 2P) / width, (S - 2P) / height)`.  `none` marks the one case
(`width = 0` and `height = 0`) where the JS value is `Infinity`. -/
def scale_factor (b : Bounds) : Option ℚ :=
  jsMin (fitRatio (sceneWidth b)) (fitRatio (sceneHeight b))

/-- The `Matrix` record of the `transformation-matrix` npm package used by the
source: `x' = a·x + c·y + e`, `y' = b·x + d·y + f`. -/
structure Matrix where
  a : ℚ
  b : ℚ
  c : ℚ
  d : ℚ
  e : ℚ
  f : ℚ
deriving DecidableEq, Repr

/-- `translate(tx, ty)` of the `transformation-matrix` package. -/
def translateM (tx ty : ℚ) : Matrix := ⟨1, 0, 0, 1, tx, ty⟩

/-- `scale(sx, sy)` of the `transformation-matrix` package. -/
def scaleM (sx sy : ℚ) : Matrix := ⟨sx, 0, 0, sy, 0, 0⟩

/-- Matrix product of the `transformation-matrix` package (`compose` folds
this pairwise; the right factor is applied first). -/
def composeM (m1 m2 : Matrix) : Matrix :=
  ⟨ m1.a * m2.a + m1.c * m2.b,
    m1.b * m2.a + m1.d * m2.b,
    m1.a * m2.c + m1.c * m2.d,
    m1.b * m2.c + m1.d * m2.d,
    m1.a * m2.e + m1.c * m2.f + m1.e,
    m1.b * m2.e + m1.d * m2.f + m1.f ⟩

/-- `applyToPoint` of the `transformation-matrix` package. -/
def applyToPoint (m : Matrix) (p : ℚ × ℚ) : ℚ × ℚ :=
  (m.a * p.1 + m.c * p.2 + m.e, m.b * p.1 + m.d * p.2 + m.f)

/-- Source `getProjectionMatrix` (lines 61-81):
`compose(translate(S/2, S/2), scale(k, cs === "screen" ? -k : k),
translate(-(minX + width/2), -(minY + height/2)))`.
When `scale_factor` is finite the composed JS matrix is exactly the rational
matrix below.  When `scale_factor` is `Infinity` (`none`, i.e. zero width and
zero height) the JS result has non-finite entries: `a = Infinity`,
`d = ±Infinity`, `b = 0·Infinity + 0 = NaN`, `c = Infinity·0 + 0 = NaN`, and
`e`, `f` are `NaN` or `±Infinity` depending on the scene center; `none`
models that matrix. -/
def getProjectionMatrix (b : Bounds) (cs : Option CoordSys) : Option Matrix :=
  (scale_factor b).map fun k =>
    composeM (translateM (DEFAULT_SVG_SIZE / 2) (DEFAULT_SVG_SIZE / 2))
      (composeM
        (scaleM k (if cs = some CoordSys.screen then -k else k))
        (translateM (-(b.minX + sceneWidth b / 2)) (-(b.minY + sceneHeight b / 2))))

/-- Source `projectPoint` (lines 83-86): apply the matrix to `{x, y}` and
spread the result over the original point, keeping its other fields. -/
def projectPoint (p : Point) (m : Matrix) : Point :=
  let projected := applyToPoint m (p.x, p.y)
  { p with x := projected.1, y := projected.2 }

/-- A JS numeric `||` default: `v || dflt` yields `dflt` when `v` is absent
or `0` (both falsy); `NaN` (the remaining numeric falsy value) does not arise
in `ℚ`. -/
def numOr (v : Option ℚ) (dflt : ℚ) : ℚ :=
  match v with
  | none => dflt
  | some q => if q = 0 then dflt else q

/-- A JS string `||` default: `v || dflt` yields `dflt` when `v` is absent or
the empty string (both falsy). -/
def strOr (v : Option String) (dflt : String) : String :=
  match v with
  | none => dflt
  | some s => if s = "" then dflt else s

/-- Attribute values of the assembled node tree.  The source stringifies
numbers with `Number.toString()` and builds the polyline `points` attribute
by joining `x,y` pairs; decimal formatting belongs to the external serializer
(spec §6), so the embedding keeps the numeric payloads:
`num q` stands for the decimal string of `q`, `numPairs l` for the joined
`x,y` pair list, `str s` for a literal string. -/
inductive AttrVal where
  | str (s : String)
  | num (q : ℚ)
  | numPairs (l : List (ℚ × ℚ))
deriving DecidableEq, Repr

/-- Nodes of the abstract svgson tree built by the source.  `script m` stands
for the text node holding the fixed mouse-tracking script template with the
matrix `m` serialized into it (source lines 237-280); the template text is
constant apart from `m`, and its runtime behaviour is embedded separately as
`scriptInverse`. -/
inductive SvgNode where
  | element (name : String) (attributes : List (String × AttrVal)) (children : List SvgNode)
  | text (value : String)
  | script (matrix : Matrix)

/-- The closed-form inverse the embedded interaction script applies to the
cursor position (source lines 258-271): `sx = matrix.a`, `sy = matrix.d`,
`tx = matrix.e`, `ty = matrix.f`, `realPoint = ((x - tx) / sx,
-((y - ty) / sy))`. -/
def scriptInverse (m : Matrix) (p : ℚ × ℚ) : ℚ × ℚ :=
  ((p.1 - m.e) / m.a, -((p.2 - m.f) / m.d))

/-- The `g` node rendered for one scene point (source lines 104-137):
a radius-3 circle at the projected position, plus a text node when the label
is truthy (JS `point.label ? … : …`, so an empty-string label produces no
text node). -/
def renderPoint (m : Matrix) (p : Point) : SvgNode :=
  let projected := projectPoint p m
  SvgNode.element "g" []
    ([ SvgNode.element "circle"
        [ ("cx", AttrVal.num projected.x),
          ("cy", AttrVal.num projected.y),
          ("r", AttrVal.str "3"),
          ("fill", AttrVal.str (strOr p.color "black")) ] [] ]
      ++ match p.label with
         | some lbl =>
             if lbl = "" then []
             else
               [ SvgNode.element "text"
                   [ ("x", AttrVal.num (projected.x + 5)),
                     ("y", AttrVal.num (projected.y - 5)),
                     ("font-family", AttrVal.str "sans-serif"),
                     ("font-size", AttrVal.str "12") ]
                   [SvgNode.text lbl] ]
         | none => [])

/-- The polyline node rendered for one line (source lines 139-151).
The source reads `line.points[0].stroke`; on an empty vertex list
`line.points[0]` is `undefined` and the property access throws a
`TypeError`, modelled by `none`. -/
def renderLine (m : Matrix) (l : Line) : Option SvgNode :=
  match l.points with
  | [] => none
  | p0 :: _ =>
      some (SvgNode.element "polyline"
        [ ("points", AttrVal.numPairs (l.points.map fun p =>
            let q := projectPoint p m
            (q.x, q.y))),
          ("fill", AttrVal.str "none"),
          ("stroke", AttrVal.str "black"),
          ("stroke-width", AttrVal.num (numOr p0.stroke 1)) ] [])

/-- The rect node rendered for one Rect (source lines 153-169):
`scaledWidth = width · a`, `scaledHeight = height · d` (signed), top-left
corner at projected center minus half the signed scaled extents, rendered
height is `Math.abs(scaledHeight)`. -/
def renderRect (m : Matrix) (r : Rect) : SvgNode :=
  let projected := projectPoint r.center m
  let scaledWidth := r.width * m.a
  let scaledHeight := r.height * m.d
  SvgNode.element "rect"
    [ ("x", AttrVal.num (projected.x - scaledWidth / 2)),
      ("y", AttrVal.num (projected.y - scaledHeight / 2)),
      ("width", AttrVal.num scaledWidth),
      ("height", AttrVal.num |scaledHeight|),
      ("fill", AttrVal.str (strOr r.fill "none")),
      ("stroke", AttrVal.str (strOr r.stroke "black")) ] []

/-- The circle node rendered for one Circle (source lines 171-185):
`scaledRadius = radius · |a|`. -/
def renderCircle (m : Matrix) (c : Circle) : SvgNode :=
  let projected := projectPoint c.center m
  let scaledRadius := c.radius * |m.a|
  SvgNode.element "circle"
    [ ("cx", AttrVal.num projected.x),
      ("cy", AttrVal.num projected.y),
      ("r", AttrVal.num scaledRadius),
      ("fill", AttrVal.str (strOr c.fill "none")),
      ("stroke", AttrVal.str (strOr c.stroke "black")) ] []

/-- The fixed hidden crosshair overlay subtree (source lines 187-229). -/
def crosshairNode : SvgNode :=
  SvgNode.element "g"
    [ ("id", AttrVal.str "crosshair"),
      ("style", AttrVal.str "display: none") ]
    [ SvgNode.element "line"
        [ ("id", AttrVal.str "crosshair-h"),
          ("y1", AttrVal.str "0"),
          ("y2", AttrVal.num DEFAULT_SVG_SIZE),
          ("stroke", AttrVal.str "#666"),
          ("stroke-width", AttrVal.str "0.5") ] [],
      SvgNode.element "line"
        [ ("id", AttrVal.str "crosshair-v"),
          ("x1", AttrVal.str "0"),
          ("x2", AttrVal.num DEFAULT_SVG_SIZE),
          ("stroke", AttrVal.str "#666"),
          ("stroke-width", AttrVal.str "0.5") ] [],
      SvgNode.element "text"
        [ ("id", AttrVal.str "coordinates"),
          ("font-family", AttrVal.str "monospace"),
          ("font-size", AttrVal.str "12"),
          ("fill", AttrVal.str "#666") ]
        [SvgNode.text ""] ]

/-- The script element (source lines 231-283): one text child holding the
interaction template with the matrix baked in. -/
def scriptElement (m : Matrix) : SvgNode :=
  SvgNode.element "script" [] [SvgNode.script m]

/-- The child list of the root svg element (source lines 102-284), in source
order: points, lines, rects, circles, crosshair overlay, script.  `none`
propagates the `TypeError` a zero-vertex line raises in `renderLine`. -/
def svgChildren (m : Matrix) (g : Graphics) : Option (List SvgNode) :=
  ((linesOrEmpty g).mapM (renderLine m)).map fun lineNodes =>
    (pointsOrEmpty g).map (renderPoint m)
      ++ lineNodes
      ++ (rectsOrEmpty g).map (renderRect m)
      ++ (circlesOrEmpty g).map (renderCircle m)
      ++ [crosshairNode, scriptElement m]

/-- Root element attributes (source lines 96-101); the `viewBox` template
string evaluates to the constant below. -/
def svgRootAttributes : List (String × AttrVal) :=
  [ ("width", AttrVal.num DEFAULT_SVG_SIZE),
    ("height", AttrVal.num DEFAULT_SVG_SIZE),
    ("viewBox", AttrVal.str "0 0 640 640"),
    ("xmlns", AttrVal.str "http://www.w3.org/2000/svg") ]

/-- Source `getSvgFromGraphicsObject` (lines 88-289) up to the external
serializer (`stringify`/`pretty`, out of scope per spec §6): the assembled
root node.  `none` marks the two failure modes: a non-finite projection
matrix (degenerate bounds, see `getProjectionMatrix`) whose `NaN` entries
would otherwise flow into every numeric attribute, and the `TypeError`
raised for a zero-vertex line. -/
def getSvgFromGraphicsObject (g : Graphics) : Option SvgNode :=
  match getProjectionMatrix (getBounds g) g.coordinateSystem with
  | none => none
  | some m =>
      (svgChildren m g).map fun children =>
        SvgNode.element "svg" svgRootAttributes children

/-- Attribute lookup on an element node (observation helper for the
theorems; not part of the source). -/
def getAttr : SvgNode → String → Option AttrVal
  | SvgNode.element _ attrs _, key => attrs.lookup key
  | _, _ => none

/-- Attribute lookup through `Option` (observation helper). -/
def attrOfOpt (o : Option SvgNode) (key : String) : Option AttrVal :=
  o.bind fun n => getAttr n key

/-- Fill attribute of the inner circle of a rendered point group
(observation helper). -/
def pointCircleFill : SvgNode → Option AttrVal
  | SvgNode.element _ _ (c :: _) => getAttr c "fill"
  | _ => none

/-- The four corners of a bounding box, as scene-space pairs. -/
def cornersOf (b : Bounds) : List (ℚ × ℚ) :=
  [ (b.minX, b.minY), (b.maxX, b.minY), (b.minX, b.maxY), (b.maxX, b.maxY) ]

/-- The padded canvas band `[P, S - P] = [40, 600]` on both axes. -/
def inCanvasRange (p : ℚ × ℚ) : Prop :=
  PADDING ≤ p.1 ∧ p.1 ≤ DEFAULT_SVG_SIZE - PADDING
    ∧ PADDING ≤ p.2 ∧ p.2 ≤ DEFAULT_SVG_SIZE - PADDING

instance (p : ℚ × ℚ) : Decidable (inCanvasRange p) := by
  unfold inCanvasRange; infer_instance

/-- Scene with the two points `(-1,-1)` and `(1,1)` (bounding box
`[-1,1] × [-1,1]`). -/
def twoPointsDiag : Graphics :=
  { points := some [⟨-1, -1, none, none, none⟩, ⟨1, 1, none, none, none⟩] }

/-- Scene whose only primitive is the single point `(5, 7)`: all scanned
points coincide, so the bounding box has zero width and zero height. -/
def singlePointA : Graphics := { points := some [⟨5, 7, none, none, none⟩] }

/-- A two-vertex line whose first point carries `stroke = 1`. -/
def strokeLine : Line := ⟨[⟨0, 0, none, none, some 1⟩, ⟨2, 2, none, none, none⟩]⟩

/-- Scene holding only `strokeLine` (bounding box `[0,2] × [0,2]`,
scale factor `280`). -/
def strokeLineScene : Graphics :=
  { lines := some [strokeLine], coordinateSystem := some CoordSys.math }

/-- A `2 × 2` rect centered at the origin. -/
def screenRect : Rect := { center := ⟨0, 0, none, none, none⟩, width := 2, height := 2 }

/-- Scene holding only `screenRect`, under the `"screen"` coordinate system. -/
def screenRectScene : Graphics :=
  { rects := some [screenRect], coordinateSystem := some CoordSys.screen }

/-- The single-point scene of the spec's worked example:
one point `(0, 0)` with `coordinateSystem "math"`. -/
def originPointScene : Graphics :=
  { points := some [⟨0, 0, none, none, none⟩], coordinateSystem := some CoordSys.math }

/-- A scene with every collection absent. -/
def emptyScene : Graphics := {}

/-- Scene whose only primitive is the single point `(1, 2)`. -/
def singlePointB : Graphics := { points := some [⟨1, 2, none, none, none⟩] }

/-- Scene with the two points `(0,0)` and `(2,1)` (bounding box
`[0,2] × [0,1]`, width `2`, height `1`). -/
def fitWitnessScene : Graphics :=
  { points := some [⟨0, 0, none, none, none⟩, ⟨2, 1, none, none, none⟩] }

/-- The spec's empty-scene example: only an empty `lines` array, every other
collection (and the coordinate-system tag) absent. -/
def emptyLinesScene : Graphics := { lines := some [] }

/-- Scene whose only primitive is the single point `(3, 5)`. -/
def singlePointC : Graphics := { points := some [⟨3, 5, none, none, none⟩] }

/-- Scene with the two points `(0,0)` and `(2,1)`, used to exercise the
screen/math mirror relation. -/
def mirrorWitnessScene : Graphics :=
  { points := some [⟨0, 0, none, none, none⟩, ⟨2, 1, none, none, none⟩] }

/-- The bounds accumulator keeps `minX ≤ maxX` and `minY ≤ maxY`. -/
theorem foldl_boundsStep_wf (ps : List Point) (b : Bounds)
    (hx : b.minX ≤ b.maxX) (hy : b.minY ≤ b.maxY) :
    (ps.foldl boundsStep b).minX ≤ (ps.foldl boundsStep b).maxX
      ∧ (ps.foldl boundsStep b).minY ≤ (ps.foldl boundsStep b).maxY := by
  induction ps generalizing b with
  | nil => exact ⟨hx, hy⟩
  | cons p ps ih =>
      exact ih (boundsStep b p)
        (le_trans (min_le_right _ _) (le_max_right _ _))
        (le_trans (min_le_right _ _) (le_max_right _ _))

/-- For a scene with at least one scanned point, `getBounds` returns a
well-formed box. -/
theorem getBounds_wf (g : Graphics) (hne : combinedPoints g ≠ []) :
    (getBounds g).minX ≤ (getBounds g).maxX
      ∧ (getBounds g).minY ≤ (getBounds g).maxY := by
  unfold getBounds
  split
  · exact absurd (by assumption) hne
  · exact foldl_boundsStep_wf _ _ le_rfl le_rfl

/-- Whenever the bounding box is well-formed and not a single point, the
scale factor is finite and scales both extents to at most the padded canvas
size `560`. -/
theorem scale_factor_bounds (b : Bounds) (hx : b.minX ≤ b.maxX) (hy : b.minY ≤ b.maxY)
    (hnd : sceneWidth b ≠ 0 ∨ sceneHeight b ≠ 0) :
    ∃ k, scale_factor b = some k
      ∧ 0 ≤ k * sceneWidth b ∧ k * sceneWidth b ≤ 560
      ∧ 0 ≤ k * sceneHeight b ∧ k * sceneHeight b ≤ 560 := by
  have h560 : (DEFAULT_SVG_SIZE - 2 * PADDING : ℚ) = 560 := by
    norm_num [DEFAULT_SVG_SIZE, PADDING]
  have hw0 : 0 ≤ sceneWidth b := by unfold sceneWidth; linarith
  have hh0 : 0 ≤ sceneHeight b := by unfold sceneHeight; linarith
  by_cases hw : sceneWidth b = 0
  · have hh : sceneHeight b ≠ 0 := by
      rcases hnd with h | h
      · exact absurd hw h
      · exact h
    have hhpos : 0 < sceneHeight b := lt_of_le_of_ne hh0 (Ne.symm hh)
    refine ⟨560 / sceneHeight b, ?_, ?_, ?_, ?_, ?_⟩
    · simp [scale_factor, fitRatio, hw, hh, jsMin, h560]
    · rw [hw]; norm_num
    · rw [hw]; norm_num
    · positivity
    · rw [div_mul_cancel₀ _ hh]
  · have hwpos : 0 < sceneWidth b := lt_of_le_of_ne hw0 (Ne.symm hw)
    by_cases hh : sceneHeight b = 0
    · refine ⟨560 / sceneWidth b, ?_, ?_, ?_, ?_, ?_⟩
      · simp [scale_factor, fitRatio, hw, hh, jsMin, h560]
      · positivity
      · rw [div_mul_cancel₀ _ hw]
      · rw [hh]; norm_num
      · rw [hh]; norm_num
    · have hhpos : 0 < sceneHeight b := lt_of_le_of_ne hh0 (Ne.symm hh)
      refine ⟨min (560 / sceneWidth b) (560 / sceneHeight b), ?_, ?_, ?_, ?_, ?_⟩
      · simp [scale_factor, fitRatio, hw, hh, jsMin, h560]
      · exact mul_nonneg (le_min (by positivity) (by positivity)) hw0
      · calc min (560 / sceneWidth b) (560 / sceneHeight b) * sceneWidth b
            ≤ 560 / sceneWidth b * sceneWidth b :=
              mul_le_mul_of_nonneg_right (min_le_left _ _) hw0
          _ = 560 := div_mul_cancel₀ _ hw
      · exact mul_nonneg (le_min (by positivity) (by positivity)) hh0
      · calc min (560 / sceneWidth b) (560 / sceneHeight b) * sceneHeight b
            ≤ 560 / sceneHeight b * sceneHeight b :=
              mul_le_mul_of_nonneg_right (min_le_right _ _) hh0
          _ = 560 := div_mul_cancel₀ _ hh

/-- Closed form of the finite projection matrix: pure scale `(k, ±k)` plus
translation, no shear. -/
theorem getProjectionMatrix_eq (b : Bounds) (cs : Option CoordSys) (k : ℚ)
    (h : scale_factor b = some k) :
    getProjectionMatrix b cs = some
      ⟨k, 0, 0, if cs = some CoordSys.screen then -k else k,
        DEFAULT_SVG_SIZE / 2 - k * (b.minX + sceneWidth b / 2),
        DEFAULT_SVG_SIZE / 2
          - (if cs = some CoordSys.screen then -k else k) * (b.minY + sceneHeight b / 2)⟩ := by
  simp only [getProjectionMatrix, h, Option.map_some']
  congr 1
  simp only [composeM, translateM, scaleM, Matrix.mk.injEq]
  refine ⟨by ring, by ring, by ring, by ring, by ring, by ring⟩

/-- The two coordinate-system tags are distinct (simp fodder for reducing
the vertical-flip branch). -/
theorem math_eq_screen_false : (CoordSys.math = CoordSys.screen) = False :=
  eq_false (by decide)

/-- An absent coordinate-system tag is not the `"screen"` tag (simp fodder
for reducing the vertical-flip branch). -/
theorem none_eq_someScreen_false :
    ((none : Option CoordSys) = some CoordSys.screen) = False :=
  eq_false (by decide)

/-- C1: the embedded interaction script does NOT recover the scene point.
For the scene with points `(-1,-1)` and `(1,1)` the projection matrix is
`⟨280,0,0,280,320,320⟩` under `"math"` and `⟨280,0,0,-280,320,320⟩` under
`"screen"`; in both coordinate systems, running the script's closed-form
inverse on the projection of the scene point `(1,1)` yields `(1,-1)` — the
y-coordinate comes back negated (off by `2`, far beyond 2-decimal rounding),
because `-(y - f)/d` negates the already-correct quotient `(y - f)/d`. -/
theorem script_inverse_negates_y :
    getProjectionMatrix (getBounds twoPointsDiag) (some CoordSys.math)
        = some ⟨280, 0, 0, 280, 320, 320⟩
    ∧ getProjectionMatrix (getBounds twoPointsDiag) (some CoordSys.screen)
        = some ⟨280, 0, 0, -280, 320, 320⟩
    ∧ scriptInverse ⟨280, 0, 0, 280, 320, 320⟩
        (applyToPoint ⟨280, 0, 0, 280, 320, 320⟩ (1, 1)) = (1, -1)
    ∧ scriptInverse ⟨280, 0, 0, -280, 320, 320⟩
        (applyToPoint ⟨280, 0, 0, -280, 320, 320⟩ (1, 1)) = (1, -1) := by
  refine ⟨?_, ?_, ?_, ?_⟩
  · norm_num [getBounds, combinedPoints, pointsOrEmpty, linesOrEmpty, rectsOrEmpty,
      circlesOrEmpty, twoPointsDiag, boundsStep, scale_factor, fitRatio, jsMin,
      sceneWidth, sceneHeight, getProjectionMatrix, composeM, translateM, scaleM,
      min_def, max_def, math_eq_screen_false, DEFAULT_SVG_SIZE, PADDING]
  · norm_num [getBounds, combinedPoints, pointsOrEmpty, linesOrEmpty, rectsOrEmpty,
      circlesOrEmpty, twoPointsDiag, boundsStep, scale_factor, fitRatio, jsMin,
      sceneWidth, sceneHeight, getProjectionMatrix, composeM, translateM, scaleM,
      min_def, max_def, DEFAULT_SVG_SIZE, PADDING]
  · norm_num [scriptInverse, applyToPoint, Prod.ext_iff]
  · norm_num [scriptInverse, applyToPoint, Prod.ext_iff]

/-- C2: no minimum-extent floor is substituted.  For the scene whose only
primitive is the point `(5,7)`, the bounding box degenerates to
`{5,5,7,7}` with zero width and zero height, and `scale_factor` is the
JS value `Infinity` (modelled `none`): the non-finite value is propagated
into the matrix (whose entries become `NaN`/`±Infinity`, see
`getProjectionMatrix`) instead of being floored away. -/
theorem degenerate_scale_factor_unguarded :
    getBounds singlePointA = ⟨5, 5, 7, 7⟩
    ∧ sceneWidth (getBounds singlePointA) = 0
    ∧ sceneHeight (getBounds singlePointA) = 0
    ∧ scale_factor (getBounds singlePointA) = none
    ∧ getProjectionMatrix (getBounds singlePointA) (some CoordSys.math) = none := by
  refine ⟨?_, ?_, ?_, ?_, ?_⟩ <;>
    norm_num [getBounds, combinedPoints, pointsOrEmpty, linesOrEmpty, rectsOrEmpty,
      circlesOrEmpty, singlePointA, boundsStep, scale_factor, fitRatio, jsMin,
      sceneWidth, sceneHeight, getProjectionMatrix, min_def, max_def,
      DEFAULT_SVG_SIZE, PADDING]

/-- C3 (amended): the rendered polyline's stroke-width equals the line's
resolved stroke width — the first point's `stroke`, default `1` — with no
multiplication by the projection scale factor. -/
theorem polyline_stroke_width_unscaled (m : Matrix) (p : Point) (ps : List Point) :
    attrOfOpt (renderLine m ⟨p :: ps⟩) "stroke-width"
      = some (AttrVal.num (numOr p.stroke 1)) := rfl

/-- C3 (counterexample): for the scene holding one line with resolved stroke
width `1`, the projection scale factor is `280` (matrix entry `a = 280`),
but the rendered stroke-width attribute is `1`, not `1 * 280`, refuting the
claim that stroke widths are multiplied by the scale factor. -/
theorem stroke_width_not_scaled_counterexample :
    getProjectionMatrix (getBounds strokeLineScene) strokeLineScene.coordinateSystem
        = some ⟨280, 0, 0, 280, 40, 40⟩
    ∧ ¬ (attrOfOpt (renderLine ⟨280, 0, 0, 280, 40, 40⟩ strokeLine) "stroke-width"
          = some (AttrVal.num (numOr (some 1) 1 * 280))) := by
  constructor
  · norm_num [getBounds, combinedPoints, pointsOrEmpty, linesOrEmpty, rectsOrEmpty,
      circlesOrEmpty, strokeLineScene, strokeLine, boundsStep, scale_factor,
      fitRatio, jsMin, sceneWidth, sceneHeight, getProjectionMatrix, composeM,
      translateM, scaleM, min_def, max_def, math_eq_screen_false,
      DEFAULT_SVG_SIZE, PADDING]
  · intro h
    have h1 : attrOfOpt (renderLine ⟨280, 0, 0, 280, 40, 40⟩ strokeLine) "stroke-width"
        = some (AttrVal.num 1) := rfl
    rw [h1] at h
    norm_num [numOr] at h

/-- C4: under the `"screen"` flip the rect is NOT center-anchored.  For the
`2 × 2` rect at the origin, alone in a `"screen"`-coordinate scene, the
projection matrix is `⟨280,0,0,-280,320,320⟩`, the projected center is
`(320,320)`, but the rendered rect has `y = 600` and `height = 560`:
the corner offset uses the signed scaled height `2 · (-280) = -560`, so
`y + height/2 = 880 ≠ 320` and the rect sits entirely below its projected
center (spec §4.4 requires top-left = center minus half the rendered
dimensions). -/
theorem rect_screen_offset_below_center :
    getProjectionMatrix (getBounds screenRectScene) screenRectScene.coordinateSystem
        = some ⟨280, 0, 0, -280, 320, 320⟩
    ∧ projectPoint screenRect.center ⟨280, 0, 0, -280, 320, 320⟩
        = ⟨320, 320, none, none, none⟩
    ∧ renderRect ⟨280, 0, 0, -280, 320, 320⟩ screenRect
        = SvgNode.element "rect"
            [ ("x", AttrVal.num 40), ("y", AttrVal.num 600),
              ("width", AttrVal.num 560), ("height", AttrVal.num 560),
              ("fill", AttrVal.str "none"), ("stroke", AttrVal.str "black") ] []
    ∧ ¬ ((600 : ℚ) + 560 / 2 = 320) := by
  refine ⟨?_, ?_, ?_, ?_⟩
  · norm_num [getBounds, combinedPoints, pointsOrEmpty, linesOrEmpty, rectsOrEmpty,
      circlesOrEmpty, screenRectScene, screenRect, rectCorners, boundsStep,
      scale_factor, fitRatio, jsMin, sceneWidth, sceneHeight, getProjectionMatrix,
      composeM, translateM, scaleM, min_def, max_def, DEFAULT_SVG_SIZE, PADDING]
  · norm_num [projectPoint, applyToPoint, screenRect]
  · norm_num [renderRect, projectPoint, applyToPoint, screenRect, strOr,
      SvgNode.element.injEq, Prod.ext_iff]
  · norm_num

/-- C5 (counterexample): the scene containing exactly the point `(0,0)` does
NOT fall back to the unit bounding box — `getBounds` falls back only when
the combined point set is empty, and a single point yields the degenerate
box `{0,0,0,0}`. -/
theorem single_point_bounds_not_fallback :
    ¬ (getBounds originPointScene = ⟨-1, 1, -1, 1⟩) := by
  have h : getBounds originPointScene = ⟨0, 0, 0, 0⟩ := by
    norm_num [getBounds, combinedPoints, pointsOrEmpty, linesOrEmpty, rectsOrEmpty,
      circlesOrEmpty, originPointScene, boundsStep, min_def, max_def]
  rw [h]
  norm_num [Bounds.mk.injEq]

/-- C5 (amended): the single-point scene yields the degenerate bounds
`{0,0,0,0}` and a non-finite scale factor; the values the claim lists —
fallback bounds `{-1,1,-1,1}`, scale `(640-80)/2 = 280`, and projection of
`(0,0)` to the canvas center `(320,320)` — arise for the EMPTY scene. -/
theorem single_point_vs_empty_scene_example :
    getBounds originPointScene = ⟨0, 0, 0, 0⟩
    ∧ scale_factor (getBounds originPointScene) = none
    ∧ getBounds emptyScene = ⟨-1, 1, -1, 1⟩
    ∧ scale_factor ⟨-1, 1, -1, 1⟩ = some 280
    ∧ getProjectionMatrix ⟨-1, 1, -1, 1⟩ (some CoordSys.math)
        = some ⟨280, 0, 0, 280, 320, 320⟩
    ∧ applyToPoint ⟨280, 0, 0, 280, 320, 320⟩ (0, 0) = (320, 320) := by
  refine ⟨?_, ?_, ?_, ?_, ?_, ?_⟩ <;>
    norm_num [getBounds, combinedPoints, pointsOrEmpty, linesOrEmpty, rectsOrEmpty,
      circlesOrEmpty, originPointScene, emptyScene, boundsStep, scale_factor,
      fitRatio, jsMin, sceneWidth, sceneHeight, getProjectionMatrix, composeM,
      translateM, scaleM, applyToPoint, min_def, max_def, math_eq_screen_false,
      Prod.ext_iff, DEFAULT_SVG_SIZE, PADDING]

set_option maxHeartbeats 1000000 in
/-- C6 (amended): for every scene with at least one scanned point whose
bounding box is not a single point (nonzero width or nonzero height), the
projection matrix is finite and maps all four bounding-box corners into the
padded band `[P, S-P] = [40, 600]` on both axes, under either coordinate
system. -/
theorem bbox_corners_project_within_padding (g : Graphics) (cs : Option CoordSys)
    (hne : combinedPoints g ≠ [])
    (hnd : sceneWidth (getBounds g) ≠ 0 ∨ sceneHeight (getBounds g) ≠ 0) :
    ∃ m, getProjectionMatrix (getBounds g) cs = some m
      ∧ ∀ q ∈ cornersOf (getBounds g), inCanvasRange (applyToPoint m q) := by
  obtain ⟨hx, hy⟩ := getBounds_wf g hne
  obtain ⟨k, hsf, hkw0, hkw, hkh0, hkh⟩ := scale_factor_bounds (getBounds g) hx hy hnd
  refine ⟨_, getProjectionMatrix_eq (getBounds g) cs k hsf, ?_⟩
  set b := getBounds g with hbdef
  set D : ℚ := if cs = some CoordSys.screen then -k else k with hD
  have hkw1 : k * (b.maxX - b.minX) ≤ 560 := by simpa [sceneWidth] using hkw
  have hkw2 : 0 ≤ k * (b.maxX - b.minX) := by simpa [sceneWidth] using hkw0
  have hkh1 : k * (b.maxY - b.minY) ≤ 560 := by simpa [sceneHeight] using hkh
  have hkh2 : 0 ≤ k * (b.maxY - b.minY) := by simpa [sceneHeight] using hkh0
  have hDcases : D = k ∨ D = -k := by
    rw [hD]
    split
    · exact Or.inr rfl
    · exact Or.inl rfl
  have hDb1 : -(560 : ℚ) ≤ D * (b.maxY - b.minY) := by
    rcases hDcases with h | h <;> rw [h] <;> nlinarith
  have hDb2 : D * (b.maxY - b.minY) ≤ 560 := by
    rcases hDcases with h | h <;> rw [h] <;> nlinarith
  intro q hq
  simp only [cornersOf, List.mem_cons, List.not_mem_nil, or_false] at hq
  obtain rfl | rfl | rfl | rfl := hq <;>
    · simp only [applyToPoint, inCanvasRange, sceneWidth, sceneHeight,
        DEFAULT_SVG_SIZE, PADDING]
      refine ⟨?_, ?_, ?_, ?_⟩ <;> nlinarith [hkw1, hkw2, hDb1, hDb2]

/-- C6 (witness): for the scene with points `(0,0)` and `(2,1)` under
`"math"`, the matrix exists and all four bounding-box corners project into
`[40, 600] × [40, 600]`. -/
theorem bbox_corners_project_within_padding_witness :
    ∃ m, getProjectionMatrix (getBounds fitWitnessScene) (some CoordSys.math) = some m
      ∧ ∀ q ∈ cornersOf (getBounds fitWitnessScene), inCanvasRange (applyToPoint m q) :=
  bbox_corners_project_within_padding fitWitnessScene (some CoordSys.math)
    (by simp [combinedPoints, pointsOrEmpty, linesOrEmpty, rectsOrEmpty,
      circlesOrEmpty, fitWitnessScene])
    (Or.inl (by norm_num [getBounds, combinedPoints, pointsOrEmpty, linesOrEmpty,
      rectsOrEmpty, circlesOrEmpty, fitWitnessScene, boundsStep, sceneWidth,
      min_def, max_def]))

/-- C6 (counterexample): the claim as stated fails for the non-empty scene
holding only the point `(1,2)`: the scale factor is the JS value `Infinity`,
the matrix entries are non-finite (`none` in the embedding), so no finite
projection of the bounding-box corners lands in `[40, 600]` — in the real
output the corner coordinates are `NaN`. -/
theorem coincident_scene_fit_fails :
    combinedPoints singlePointB ≠ []
    ∧ ¬ ∃ m, getProjectionMatrix (getBounds singlePointB) (some CoordSys.math) = some m
          ∧ ∀ q ∈ cornersOf (getBounds singlePointB), inCanvasRange (applyToPoint m q) := by
  constructor
  · simp [combinedPoints, pointsOrEmpty, linesOrEmpty, rectsOrEmpty,
      circlesOrEmpty, singlePointB]
  · rintro ⟨m, hm, -⟩
    have h0 : getProjectionMatrix (getBounds singlePointB) (some CoordSys.math) = none := by
      norm_num [getBounds, combinedPoints, pointsOrEmpty, linesOrEmpty, rectsOrEmpty,
        circlesOrEmpty, singlePointB, boundsStep, scale_factor, fitRatio, jsMin,
        sceneWidth, sceneHeight, getProjectionMatrix, min_def, max_def]
    rw [h0] at hm
    exact Option.noConfusion hm

/-- Rendering an empty line list cannot throw: `mapM` over `[]` succeeds
with the accumulator. -/
theorem mapM_loop_renderLine_nil (m : Matrix) (acc : List SvgNode) :
    List.mapM.loop (renderLine m) [] acc = some acc.reverse := rfl

/-- C7: a scene whose four primitive collections are all absent or empty
renders without throwing: the bounds fall back to `{-1,1,-1,1}`, the
projection matrix is finite, and the root element's children are exactly
the crosshair overlay and the script node. -/
theorem empty_scene_fallback_document (g : Graphics)
    (hp : pointsOrEmpty g = []) (hl : linesOrEmpty g = [])
    (hr : rectsOrEmpty g = []) (hc : circlesOrEmpty g = []) :
    getBounds g = ⟨-1, 1, -1, 1⟩
    ∧ ∃ m, getProjectionMatrix ⟨-1, 1, -1, 1⟩ g.coordinateSystem = some m
        ∧ getSvgFromGraphicsObject g
            = some (SvgNode.element "svg" svgRootAttributes
                [crosshairNode, scriptElement m]) := by
  have hcp : combinedPoints g = [] := by
    simp [combinedPoints, hp, hl, hr, hc]
  have hb : getBounds g = ⟨-1, 1, -1, 1⟩ := by
    simp [getBounds, hcp]
  refine ⟨hb, ?_⟩
  have hsf : scale_factor (⟨-1, 1, -1, 1⟩ : Bounds) = some 280 := by
    norm_num [scale_factor, fitRatio, jsMin, sceneWidth, sceneHeight, min_def,
      DEFAULT_SVG_SIZE, PADDING]
  have hme := getProjectionMatrix_eq ⟨-1, 1, -1, 1⟩ g.coordinateSystem 280 hsf
  refine ⟨_, hme, ?_⟩
  simp [getSvgFromGraphicsObject, hb, hme, svgChildren, hp, hl, hr, hc,
    mapM_loop_renderLine_nil]

/-- C7 (witness): the spec's example scene carrying only an empty `lines`
array falls back to the unit box and renders just the overlay and the
script. -/
theorem empty_scene_fallback_document_witness :
    getBounds emptyLinesScene = ⟨-1, 1, -1, 1⟩
    ∧ ∃ m, getProjectionMatrix ⟨-1, 1, -1, 1⟩ emptyLinesScene.coordinateSystem = some m
        ∧ getSvgFromGraphicsObject emptyLinesScene
            = some (SvgNode.element "svg" svgRootAttributes
                [crosshairNode, scriptElement m]) :=
  empty_scene_fallback_document emptyLinesScene rfl rfl rfl rfl

/-- C8 (amended): whenever the projection matrices of the same scene are
finite (bounding box not a single point), the `"screen"` projection of any
point has the same horizontal coordinate as the `"math"` projection, and the
vertical coordinates are mirror images around the canvas centerline:
`y_screen + y_math = 640`. -/
theorem screen_math_mirror (g : Graphics) (p : ℚ × ℚ) (mm ms : Matrix)
    (hm : getProjectionMatrix (getBounds g) (some CoordSys.math) = some mm)
    (hs : getProjectionMatrix (getBounds g) (some CoordSys.screen) = some ms) :
    (applyToPoint ms p).1 = (applyToPoint mm p).1
    ∧ (applyToPoint ms p).2 + (applyToPoint mm p).2 = DEFAULT_SVG_SIZE := by
  cases hsf : scale_factor (getBounds g) with
  | none => simp [getProjectionMatrix, hsf] at hm
  | some k =>
      rw [getProjectionMatrix_eq _ _ k hsf] at hm hs
      obtain rfl := Option.some.inj hm
      obtain rfl := Option.some.inj hs
      constructor
      · simp [applyToPoint, math_eq_screen_false]
      · simp [applyToPoint, math_eq_screen_false, DEFAULT_SVG_SIZE]
        ring

/-- C8 (witness): for the scene with points `(0,0)` and `(2,1)` and the
probe point `(2,1)`, the screen and math projections agree horizontally and
mirror vertically. -/
theorem screen_math_mirror_witness :
    (applyToPoint ⟨280, 0, 0, -280, 40, 460⟩ (2, 1)).1
        = (applyToPoint ⟨280, 0, 0, 280, 40, 180⟩ (2, 1)).1
    ∧ (applyToPoint ⟨280, 0, 0, -280, 40, 460⟩ (2, 1)).2
        + (applyToPoint ⟨280, 0, 0, 280, 40, 180⟩ (2, 1)).2 = DEFAULT_SVG_SIZE :=
  screen_math_mirror mirrorWitnessScene (2, 1)
    ⟨280, 0, 0, 280, 40, 180⟩ ⟨280, 0, 0, -280, 40, 460⟩
    (by norm_num [getBounds, combinedPoints, pointsOrEmpty, linesOrEmpty,
      rectsOrEmpty, circlesOrEmpty, mirrorWitnessScene, boundsStep, scale_factor,
      fitRatio, jsMin, sceneWidth, sceneHeight, getProjectionMatrix, composeM,
      translateM, scaleM, min_def, max_def, math_eq_screen_false,
      DEFAULT_SVG_SIZE, PADDING])
    (by norm_num [getBounds, combinedPoints, pointsOrEmpty, linesOrEmpty,
      rectsOrEmpty, circlesOrEmpty, mirrorWitnessScene, boundsStep, scale_factor,
      fitRatio, jsMin, sceneWidth, sceneHeight, getProjectionMatrix, composeM,
      translateM, scaleM, min_def, max_def, DEFAULT_SVG_SIZE, PADDING])

/-- C8 (counterexample): the claim as stated fails for the scene holding
only the point `(3,5)`: both projections are non-finite (`none` in the
embedding; `NaN` coordinates in the real output), so no pair of projected
coordinates satisfies the mirror relation. -/
theorem screen_mirror_fails_coincident :
    ¬ ∃ mm ms, getProjectionMatrix (getBounds singlePointC) (some CoordSys.math) = some mm
        ∧ getProjectionMatrix (getBounds singlePointC) (some CoordSys.screen) = some ms
        ∧ (applyToPoint ms (3, 5)).1 = (applyToPoint mm (3, 5)).1
        ∧ (applyToPoint ms (3, 5)).2 + (applyToPoint mm (3, 5)).2 = DEFAULT_SVG_SIZE := by
  rintro ⟨mm, ms, hm, -, -⟩
  have h0 : getProjectionMatrix (getBounds singlePointC) (some CoordSys.math) = none := by
    norm_num [getBounds, combinedPoints, pointsOrEmpty, linesOrEmpty, rectsOrEmpty,
      circlesOrEmpty, singlePointC, boundsStep, scale_factor, fitRatio, jsMin,
      sceneWidth, sceneHeight, getProjectionMatrix, min_def, max_def]
  rw [h0] at hm
  exact Option.noConfusion hm

/-- C9 (amended): every finite projection matrix produced by
`getProjectionMatrix` — any bounds whose scale factor is finite, either
coordinate-system tag — has `b = 0` and `c = 0`: pure scale plus
translation, no rotation or shear. -/
theorem projection_matrix_no_shear (b : Bounds) (cs : Option CoordSys) (m : Matrix)
    (h : getProjectionMatrix b cs = some m) : m.b = 0 ∧ m.c = 0 := by
  cases hsf : scale_factor b with
  | none => simp [getProjectionMatrix, hsf] at h
  | some k =>
      rw [getProjectionMatrix_eq b cs k hsf] at h
      obtain rfl := Option.some.inj h
      exact ⟨rfl, rfl⟩

/-- C9 (witness): the matrix for bounds `{0,1,0,1}` with an absent
coordinate-system tag is `⟨560,0,0,560,40,40⟩`, with `b = c = 0`. -/
theorem projection_matrix_no_shear_witness :
    (⟨560, 0, 0, 560, 40, 40⟩ : Matrix).b = 0
    ∧ (⟨560, 0, 0, 560, 40, 40⟩ : Matrix).c = 0 :=
  projection_matrix_no_shear ⟨0, 1, 0, 1⟩ none ⟨560, 0, 0, 560, 40, 40⟩
    (by norm_num [getProjectionMatrix, scale_factor, fitRatio, jsMin, sceneWidth,
      sceneHeight, composeM, translateM, scaleM, min_def, none_eq_someScreen_false,
      DEFAULT_SVG_SIZE, PADDING])

/-- C9 (counterexample): the claim as stated fails for the degenerate bounds
`{2,2,-3,-3}` (zero width and height): the JS matrix there has
`b = 0 · Infinity + 0 = NaN` and `c = Infinity · 0 + 0 = NaN` — non-finite,
not `0` (`none` in the embedding), so no finite matrix with `b = c = 0` is
produced. -/
theorem degenerate_bounds_matrix_nonfinite :
    ¬ ∃ m, getProjectionMatrix ⟨2, 2, -3, -3⟩ (some CoordSys.math) = some m
        ∧ m.b = 0 ∧ m.c = 0 := by
  rintro ⟨m, hm, -⟩
  have h0 : getProjectionMatrix (⟨2, 2, -3, -3⟩ : Bounds) (some CoordSys.math) = none := by
    norm_num [getProjectionMatrix, scale_factor, fitRatio, jsMin, sceneWidth,
      sceneHeight]
  rw [h0] at hm
  exact Option.noConfusion hm

/-- C10: JS `||` defaulting treats every falsy value as missing at the
public interface: a line whose first point has `stroke = 0` renders with
stroke-width `1`, and a point whose `color` is the empty string renders its
circle with fill `"black"` — for any matrix, trailing vertices, label and
stroke. -/
theorem falsy_stroke_and_color_defaults (m : Matrix) (x y px py : ℚ)
    (c1 l1 : Option String) (ps : List Point) (lbl : Option String) (st : Option ℚ) :
    attrOfOpt (renderLine m ⟨⟨x, y, c1, l1, some 0⟩ :: ps⟩) "stroke-width"
        = some (AttrVal.num 1)
    ∧ pointCircleFill (renderPoint m ⟨px, py, some "", lbl, st⟩)
        = some (AttrVal.str "black") :=
  ⟨rfl, rfl⟩

end GraphicsDebug
